import Mathlib

/-!
Verification development for the pathfinder gateway client and versioned
transaction codec.  The definitions below are a shallow embedding of
`crates/rpc/src/v02/types.rs`, `crates/gateway-client/src/lib.rs` and
`crates/pathfinder/src/rpc/api.rs`.  Field elements and all felt-backed
newtypes (fees, nonces, hashes, addresses) are modelled as `Nat`; hash
algorithms and the deployed-address derivation are external collaborators
and are modelled as total placeholder functions, since only their wiring
(never their values) is subject to the theorems here.
-/

namespace Pathfinder

/-- Field elements are modelled as natural numbers. -/
abbrev Felt := Nat

abbrev Fee := Felt
abbrev TransactionNonce := Felt
abbrev TransactionSignatureElem := Felt
abbrev CallParam := Felt
abbrev ClassHash := Felt
abbrev CasmHash := Felt
abbrev ContractAddress := Felt
abbrev ContractAddressSalt := Felt
abbrev EntryPoint := Felt
abbrev Tip := Felt
abbrev PaymasterDataElem := Felt
abbrev AccountDeploymentDataElem := Felt
abbrev ChainId := Felt
abbrev TransactionVersion := Nat

/-- Query-flagged versions set bit 128 of the version felt; the base version
is the value of the low 128 bits. -/
def QUERY_VERSION_BASE : Nat := 2 ^ 128

/-- Modelled from the spec: `TransactionVersion::without_query_version` lives
in the pathfinder-common crate, which is not among the sources; per the spec
it strips the query-marker bit, keeping the low bits of the version felt. -/
def without_query_version (v : TransactionVersion) : Nat := v % QUERY_VERSION_BASE

/-- Resource bound of the V3 fee model, from `ResourceBound` in types.rs. -/
structure ResourceBound where
  max_amount : Nat
  max_price_per_unit : Nat
deriving DecidableEq

/-- Pair of L1/L2 gas bounds, from `ResourceBounds` in types.rs. -/
structure ResourceBounds where
  l1_gas : ResourceBound
  l2_gas : ResourceBound
deriving DecidableEq

/-- Data availability mode, from `DataAvailabilityMode` in types.rs. -/
inductive DataAvailabilityMode
| L1
| L2
deriving DecidableEq

/-- Conversion to the pathfinder-common data availability mode, mirroring the
`From` impl in types.rs (the two Rust types are distinct but isomorphic; we
use one Lean type and keep the conversion explicit). -/
def DataAvailabilityMode.into : DataAvailabilityMode → DataAvailabilityMode
| .L1 => .L1
| .L2 => .L2

/-- Conversion of a resource bound mirroring the `From` impl in types.rs. -/
def ResourceBound.into (r : ResourceBound) : ResourceBound :=
  { max_amount := r.max_amount, max_price_per_unit := r.max_price_per_unit }

/-- Conversion of resource bounds mirroring the `From` impl in types.rs. -/
def ResourceBounds.into (r : ResourceBounds) : ResourceBounds :=
  { l1_gas := r.l1_gas.into, l2_gas := r.l2_gas.into }

/-- Modelled from the spec: the Cairo 0 class body is defined in the
repository's class module, which is not among the sources; only an opaque
body is carried, since the codec treats the class as a unit to be hashed. -/
structure CairoContractClass where
  program : String
deriving DecidableEq

/-- Modelled from the spec: the Sierra class body, from the missing class
module; carried opaquely as its program words. -/
structure SierraContractClass where
  sierra_program : List Felt
deriving DecidableEq

/-- Modelled from the spec: class hashing is an external collaborator (the
spec excludes hash algorithms from scope); it is a total function of the
class body.  The concrete combination below is an arbitrary placeholder. -/
def CairoContractClass.class_hash (c : CairoContractClass) : ClassHash :=
  c.program.length + 1

/-- Modelled from the spec: Sierra class hashing, an external total function
of the class body (placeholder combination). -/
def SierraContractClass.class_hash (c : SierraContractClass) : ClassHash :=
  c.sierra_program.foldl (fun a b => a * 2 + b) 1

/-- Wire shape `BroadcastedDeclareTransactionV0` from types.rs. -/
structure BroadcastedDeclareTransactionV0 where
  max_fee : Fee
  version : TransactionVersion
  signature : List TransactionSignatureElem
  contract_class : CairoContractClass
  sender_address : ContractAddress
deriving DecidableEq

/-- Wire shape `BroadcastedDeclareTransactionV1` from types.rs. -/
structure BroadcastedDeclareTransactionV1 where
  max_fee : Fee
  version : TransactionVersion
  signature : List TransactionSignatureElem
  nonce : TransactionNonce
  contract_class : CairoContractClass
  sender_address : ContractAddress
deriving DecidableEq

/-- Wire shape `BroadcastedDeclareTransactionV2` from types.rs. -/
structure BroadcastedDeclareTransactionV2 where
  max_fee : Fee
  version : TransactionVersion
  signature : List TransactionSignatureElem
  nonce : TransactionNonce
  compiled_class_hash : CasmHash
  contract_class : SierraContractClass
  sender_address : ContractAddress
deriving DecidableEq

/-- Wire shape `BroadcastedDeclareTransactionV3` from types.rs. -/
structure BroadcastedDeclareTransactionV3 where
  version : TransactionVersion
  signature : List TransactionSignatureElem
  nonce : TransactionNonce
  resource_bounds : ResourceBounds
  tip : Tip
  paymaster_data : List PaymasterDataElem
  account_deployment_data : List AccountDeploymentDataElem
  nonce_data_availability_mode : DataAvailabilityMode
  fee_data_availability_mode : DataAvailabilityMode
  compiled_class_hash : CasmHash
  contract_class : SierraContractClass
  sender_address : ContractAddress
deriving DecidableEq

/-- Wire union `BroadcastedDeclareTransaction` from types.rs. -/
inductive BroadcastedDeclareTransaction
| V0 (t : BroadcastedDeclareTransactionV0)
| V1 (t : BroadcastedDeclareTransactionV1)
| V2 (t : BroadcastedDeclareTransactionV2)
| V3 (t : BroadcastedDeclareTransactionV3)
deriving DecidableEq

/-- Wire shape `BroadcastedDeployAccountTransactionV0V1` from types.rs. -/
structure BroadcastedDeployAccountTransactionV0V1 where
  version : TransactionVersion
  max_fee : Fee
  signature : List TransactionSignatureElem
  nonce : TransactionNonce
  contract_address_salt : ContractAddressSalt
  constructor_calldata : List CallParam
  class_hash : ClassHash
deriving DecidableEq

/-- Wire shape `BroadcastedDeployAccountTransactionV3` from types.rs. -/
structure BroadcastedDeployAccountTransactionV3 where
  version : TransactionVersion
  signature : List TransactionSignatureElem
  nonce : TransactionNonce
  resource_bounds : ResourceBounds
  tip : Tip
  paymaster_data : List PaymasterDataElem
  nonce_data_availability_mode : DataAvailabilityMode
  fee_data_availability_mode : DataAvailabilityMode
  contract_address_salt : ContractAddressSalt
  constructor_calldata : List CallParam
  class_hash : ClassHash
deriving DecidableEq

/-- Wire union `BroadcastedDeployAccountTransaction` from types.rs. -/
inductive BroadcastedDeployAccountTransaction
| V0V1 (t : BroadcastedDeployAccountTransactionV0V1)
| V3 (t : BroadcastedDeployAccountTransactionV3)
deriving DecidableEq

/-- Wire shape `BroadcastedInvokeTransactionV0` from types.rs. -/
structure BroadcastedInvokeTransactionV0 where
  version : TransactionVersion
  max_fee : Fee
  signature : List TransactionSignatureElem
  contract_address : ContractAddress
  entry_point_selector : EntryPoint
  calldata : List CallParam
deriving DecidableEq

/-- Wire shape `BroadcastedInvokeTransactionV1` from types.rs. -/
structure BroadcastedInvokeTransactionV1 where
  version : TransactionVersion
  max_fee : Fee
  signature : List TransactionSignatureElem
  nonce : TransactionNonce
  sender_address : ContractAddress
  calldata : List CallParam
deriving DecidableEq

/-- Wire shape `BroadcastedInvokeTransactionV3` from types.rs. -/
structure BroadcastedInvokeTransactionV3 where
  version : TransactionVersion
  signature : List TransactionSignatureElem
  nonce : TransactionNonce
  resource_bounds : ResourceBounds
  tip : Tip
  paymaster_data : List PaymasterDataElem
  account_deployment_data : List AccountDeploymentDataElem
  nonce_data_availability_mode : DataAvailabilityMode
  fee_data_availability_mode : DataAvailabilityMode
  sender_address : ContractAddress
  calldata : List CallParam
deriving DecidableEq

/-- Wire union `BroadcastedInvokeTransaction` from types.rs. -/
inductive BroadcastedInvokeTransaction
| V0 (t : BroadcastedInvokeTransactionV0)
| V1 (t : BroadcastedInvokeTransactionV1)
| V3 (t : BroadcastedInvokeTransactionV3)
deriving DecidableEq

/-- Wire union `BroadcastedTransaction` from types.rs. -/
inductive BroadcastedTransaction
| Declare (t : BroadcastedDeclareTransaction)
| Invoke (t : BroadcastedInvokeTransaction)
| DeployAccount (t : BroadcastedDeployAccountTransaction)
deriving DecidableEq

/-- Entry point type of the canonical model (only `External` is produced by
the codec, for Invoke V0). -/
inductive EntryPointType
| External
| L1Handler
deriving DecidableEq

/-- Canonical `DeclareTransactionV0V1` variant payload, with fields exactly
as populated by `into_common` in types.rs. -/
structure DeclareTransactionV0V1 where
  class_hash : ClassHash
  max_fee : Fee
  nonce : TransactionNonce
  signature : List TransactionSignatureElem
  sender_address : ContractAddress
deriving DecidableEq

/-- Canonical `DeclareTransactionV2` variant payload. -/
structure DeclareTransactionV2 where
  class_hash : ClassHash
  max_fee : Fee
  nonce : TransactionNonce
  sender_address : ContractAddress
  signature : List TransactionSignatureElem
  compiled_class_hash : CasmHash
deriving DecidableEq

/-- Canonical `DeclareTransactionV3` variant payload. -/
structure DeclareTransactionV3 where
  class_hash : ClassHash
  nonce : TransactionNonce
  sender_address : ContractAddress
  signature : List TransactionSignatureElem
  compiled_class_hash : CasmHash
  nonce_data_availability_mode : DataAvailabilityMode
  fee_data_availability_mode : DataAvailabilityMode
  resource_bounds : ResourceBounds
  tip : Tip
  paymaster_data : List PaymasterDataElem
  account_deployment_data : List AccountDeploymentDataElem
deriving DecidableEq

/-- Canonical `DeployAccountTransactionV0V1` variant payload. -/
structure DeployAccountTransactionV0V1 where
  contract_address : ContractAddress
  max_fee : Fee
  version : TransactionVersion
  signature : List TransactionSignatureElem
  nonce : TransactionNonce
  contract_address_salt : ContractAddressSalt
  constructor_calldata : List CallParam
  class_hash : ClassHash
deriving DecidableEq

/-- Canonical `DeployAccountTransactionV3` variant payload. -/
structure DeployAccountTransactionV3 where
  class_hash : ClassHash
  nonce : TransactionNonce
  contract_address : ContractAddress
  contract_address_salt : ContractAddressSalt
  constructor_calldata : List CallParam
  signature : List TransactionSignatureElem
  nonce_data_availability_mode : DataAvailabilityMode
  fee_data_availability_mode : DataAvailabilityMode
  resource_bounds : ResourceBounds
  tip : Tip
  paymaster_data : List PaymasterDataElem
deriving DecidableEq

/-- Canonical `InvokeTransactionV0` variant payload. -/
structure InvokeTransactionV0 where
  calldata : List CallParam
  sender_address : ContractAddress
  entry_point_type : Option EntryPointType
  entry_point_selector : EntryPoint
  max_fee : Fee
  signature : List TransactionSignatureElem
deriving DecidableEq

/-- Canonical `InvokeTransactionV1` variant payload. -/
structure InvokeTransactionV1 where
  calldata : List CallParam
  sender_address : ContractAddress
  max_fee : Fee
  signature : List TransactionSignatureElem
  nonce : TransactionNonce
deriving DecidableEq

/-- Canonical `InvokeTransactionV3` variant payload. -/
structure InvokeTransactionV3 where
  nonce : TransactionNonce
  sender_address : ContractAddress
  signature : List TransactionSignatureElem
  nonce_data_availability_mode : DataAvailabilityMode
  fee_data_availability_mode : DataAvailabilityMode
  resource_bounds : ResourceBounds
  tip : Tip
  paymaster_data : List PaymasterDataElem
  calldata : List CallParam
  account_deployment_data : List AccountDeploymentDataElem
deriving DecidableEq

/-- Canonical transaction variant, the closed tagged union used internally. -/
inductive TransactionVariant
| DeclareV0 (t : DeclareTransactionV0V1)
| DeclareV1 (t : DeclareTransactionV0V1)
| DeclareV2 (t : DeclareTransactionV2)
| DeclareV3 (t : DeclareTransactionV3)
| DeployAccountV0V1 (t : DeployAccountTransactionV0V1)
| DeployAccountV3 (t : DeployAccountTransactionV3)
| InvokeV0 (t : InvokeTransactionV0)
| InvokeV1 (t : InvokeTransactionV1)
| InvokeV3 (t : InvokeTransactionV3)
deriving DecidableEq

/-- Numeric tag identifying the constructor of a canonical variant. -/
def TransactionVariant.tag : TransactionVariant → Nat
| .DeclareV0 _ => 0
| .DeclareV1 _ => 1
| .DeclareV2 _ => 2
| .DeclareV3 _ => 3
| .DeployAccountV0V1 _ => 4
| .DeployAccountV3 _ => 5
| .InvokeV0 _ => 6
| .InvokeV1 _ => 7
| .InvokeV3 _ => 8

/-- Modelled from the spec: the transaction content hash is an external
collaborator (the spec excludes hash algorithms from scope); it is a total
function of the fully populated variant and the chain id.  The placeholder
below keeps the signature of `TransactionVariant::calculate_hash`. -/
def TransactionVariant.calculate_hash (v : TransactionVariant) (chain_id : ChainId) : Felt :=
  v.tag * 1000003 + chain_id

/-- Canonical transaction: the content hash together with the variant. -/
structure Transaction where
  hash : Felt
  variant : TransactionVariant
deriving DecidableEq

/-- Modelled from the spec: `ContractAddress::deployed_contract_address` is
the node's deployed-address derivation function, an external collaborator in
the pathfinder-common crate; it is a total function of the constructor
calldata, the salt and the class hash (placeholder combination). -/
def deployed_contract_address_fn (constructor_calldata : List CallParam)
    (contract_address_salt : ContractAddressSalt) (class_hash : ClassHash) : ContractAddress :=
  constructor_calldata.foldl (fun a b => a * 3 + b) 7 + contract_address_salt * 5 + class_hash

/-- Method `BroadcastedDeployAccountTransactionV0V1::deployed_contract_address`
from types.rs. -/
def BroadcastedDeployAccountTransactionV0V1.deployed_contract_address
    (t : BroadcastedDeployAccountTransactionV0V1) : ContractAddress :=
  deployed_contract_address_fn t.constructor_calldata t.contract_address_salt t.class_hash

/-- Method `BroadcastedDeployAccountTransactionV3::deployed_contract_address`
from types.rs. -/
def BroadcastedDeployAccountTransactionV3.deployed_contract_address
    (t : BroadcastedDeployAccountTransactionV3) : ContractAddress :=
  deployed_contract_address_fn t.constructor_calldata t.contract_address_salt t.class_hash

/-- Method `BroadcastedDeployAccountTransaction::deployed_contract_address`
from types.rs. -/
def BroadcastedDeployAccountTransaction.deployed_contract_address :
    BroadcastedDeployAccountTransaction → ContractAddress
| .V0V1 t => t.deployed_contract_address
| .V3 t => t.deployed_contract_address

/-- Conversion `BroadcastedTransaction::into_common` from types.rs, branch by
branch.  The Rust `Default::default()` for the Declare V0 nonce is the zero
felt.  The `unwrap` on `class_hash()` is total here because class hashing is
modelled as a total external function (see `CairoContractClass.class_hash`). -/
def BroadcastedTransaction.into_common (tx : BroadcastedTransaction) (chain_id : ChainId) :
    Transaction :=
  let variant : TransactionVariant :=
    match tx with
    | .Declare (.V0 declare) =>
        let cls := declare.contract_class.class_hash
        .DeclareV0 { class_hash := cls, max_fee := declare.max_fee, nonce := 0,
                     signature := declare.signature, sender_address := declare.sender_address }
    | .Declare (.V1 declare) =>
        let cls := declare.contract_class.class_hash
        .DeclareV1 { class_hash := cls, max_fee := declare.max_fee, nonce := declare.nonce,
                     signature := declare.signature, sender_address := declare.sender_address }
    | .Declare (.V2 declare) =>
        let cls := declare.contract_class.class_hash
        .DeclareV2 { class_hash := cls, max_fee := declare.max_fee, nonce := declare.nonce,
                     sender_address := declare.sender_address, signature := declare.signature,
                     compiled_class_hash := declare.compiled_class_hash }
    | .Declare (.V3 declare) =>
        let cls := declare.contract_class.class_hash
        .DeclareV3 { class_hash := cls, nonce := declare.nonce,
                     sender_address := declare.sender_address, signature := declare.signature,
                     compiled_class_hash := declare.compiled_class_hash,
                     nonce_data_availability_mode := declare.nonce_data_availability_mode.into,
                     fee_data_availability_mode := declare.fee_data_availability_mode.into,
                     resource_bounds := declare.resource_bounds.into, tip := declare.tip,
                     paymaster_data := declare.paymaster_data,
                     account_deployment_data := declare.account_deployment_data }
    | .DeployAccount (.V0V1 deploy) =>
        .DeployAccountV0V1 { contract_address := deploy.deployed_contract_address,
                             max_fee := deploy.max_fee, version := deploy.version,
                             signature := deploy.signature, nonce := deploy.nonce,
                             contract_address_salt := deploy.contract_address_salt,
                             constructor_calldata := deploy.constructor_calldata,
                             class_hash := deploy.class_hash }
    | .DeployAccount (.V3 deploy) =>
        .DeployAccountV3 { class_hash := deploy.class_hash, nonce := deploy.nonce,
                           contract_address := deploy.deployed_contract_address,
                           contract_address_salt := deploy.contract_address_salt,
                           constructor_calldata := deploy.constructor_calldata,
                           signature := deploy.signature,
                           nonce_data_availability_mode := deploy.nonce_data_availability_mode.into,
                           fee_data_availability_mode := deploy.fee_data_availability_mode.into,
                           resource_bounds := deploy.resource_bounds.into, tip := deploy.tip,
                           paymaster_data := deploy.paymaster_data }
    | .Invoke (.V0 invoke) =>
        .InvokeV0 { calldata := invoke.calldata, sender_address := invoke.contract_address,
                    entry_point_type := some .External,
                    entry_point_selector := invoke.entry_point_selector,
                    max_fee := invoke.max_fee, signature := invoke.signature }
    | .Invoke (.V1 invoke) =>
        .InvokeV1 { calldata := invoke.calldata, sender_address := invoke.sender_address,
                    max_fee := invoke.max_fee, signature := invoke.signature,
                    nonce := invoke.nonce }
    | .Invoke (.V3 invoke) =>
        .InvokeV3 { nonce := invoke.nonce, sender_address := invoke.sender_address,
                    signature := invoke.signature,
                    nonce_data_availability_mode := invoke.nonce_data_availability_mode.into,
                    fee_data_availability_mode := invoke.fee_data_availability_mode.into,
                    resource_bounds := invoke.resource_bounds.into, tip := invoke.tip,
                    paymaster_data := invoke.paymaster_data, calldata := invoke.calldata,
                    account_deployment_data := invoke.account_deployment_data }
  let hash := variant.calculate_hash chain_id
  { hash := hash, variant := variant }

/-- Canonical variant tag each wire shape is specified to map to. -/
def BroadcastedTransaction.expected_tag : BroadcastedTransaction → Nat
| .Declare (.V0 _) => 0
| .Declare (.V1 _) => 1
| .Declare (.V2 _) => 2
| .Declare (.V3 _) => 3
| .DeployAccount (.V0V1 _) => 4
| .DeployAccount (.V3 _) => 5
| .Invoke (.V0 _) => 6
| .Invoke (.V1 _) => 7
| .Invoke (.V3 _) => 8

/-- Hex rendering of a felt as it appears in query parameters. -/
def felt_hex (f : Felt) : String := "0x" ++ String.mk (Nat.toDigits 16 f)

/-- Block identifier, from pathfinder-common `BlockId` as used by the client
(numeric height, hash, or the symbolic latest/pending tags). -/
inductive BlockId
| Number (n : Nat)
| Hash (h : Felt)
| Latest
| Pending
deriving DecidableEq

/-- The two endpoint families the client talks to. -/
inductive RequestBase
| gateway
| feeder_gateway
deriving DecidableEq

/-- Modelled from the spec: the request descriptor assembled by the builder
module (not among the sources): target base, path segments, ordered query
parameters, optional bypass credential, and the retry flag handed to the
execution layer.  The flag starts false and is always set by `with_retry`
before execution, mirroring the staged builder. -/
structure Request where
  base : RequestBase
  pathSegments : List String
  params : List (String × String)
  api_key : Option String
  retry : Bool
deriving DecidableEq

/-- Modelled from the spec: `Request::builder` seeds the descriptor for a
base URL and optional bypass credential. -/
def Request.builder (base : RequestBase) (api_key : Option String) : Request :=
  { base := base, pathSegments := [], params := [], api_key := api_key, retry := false }

/-- Modelled from the spec: each `get_*`/`add_transaction` stage appends its
fixed path segment. -/
def Request.with_path (r : Request) (segment : String) : Request :=
  { r with pathSegments := r.pathSegments ++ [segment] }

def Request.get_block (r : Request) : Request := r.with_path "get_block"
def Request.get_state_update (r : Request) : Request := r.with_path "get_state_update"
def Request.get_class_by_hash (r : Request) : Request := r.with_path "get_class_by_hash"
def Request.get_compiled_class_by_class_hash (r : Request) : Request :=
  r.with_path "get_compiled_class_by_class_hash"
def Request.get_transaction (r : Request) : Request := r.with_path "get_transaction"
def Request.get_contract_addresses (r : Request) : Request := r.with_path "get_contract_addresses"
def Request.add_transaction (r : Request) : Request := r.with_path "add_transaction"
def Request.get_block_traces (r : Request) : Request := r.with_path "get_block_traces"
def Request.get_transaction_trace (r : Request) : Request := r.with_path "get_transaction_trace"
def Request.get_signature (r : Request) : Request := r.with_path "get_signature"

/-- Modelled from the spec: `add_param` appends one query parameter. -/
def Request.add_param (r : Request) (key value : String) : Request :=
  { r with params := r.params ++ [(key, value)] }

/-- Query parameter encoding a block identifier, per the wire protocol
(numeric height or hex hash, or the literal pending/latest tags). -/
def blockIdParam : BlockId → String × String
| .Number n => ("blockNumber", toString n)
| .Hash h => ("blockHash", felt_hex h)
| .Latest => ("blockNumber", "latest")
| .Pending => ("blockNumber", "pending")

/-- Modelled from the spec: `with_block` adds the block identifier query
parameter. -/
def Request.with_block (r : Request) (b : BlockId) : Request :=
  r.add_param (blockIdParam b).1 (blockIdParam b).2

/-- Modelled from the spec: `with_class_hash` adds the classHash parameter. -/
def Request.with_class_hash (r : Request) (h : ClassHash) : Request :=
  r.add_param "classHash" (felt_hex h)

/-- Modelled from the spec: `with_transaction_hash` adds the transactionHash
parameter. -/
def Request.with_transaction_hash (r : Request) (h : Felt) : Request :=
  r.add_param "transactionHash" (felt_hex h)

/-- Modelled from the spec: `with_optional_token` adds the token parameter
when one is supplied. -/
def Request.with_optional_token (r : Request) : Option String → Request
| some token => r.add_param "token" token
| none => r

/-- Modelled from the spec: `with_retry` records whether the execution layer
may loop through the retry policy for this request. -/
def Request.with_retry (r : Request) (retry : Bool) : Request :=
  { r with retry := retry }

/-- The client state relevant to request construction, from `Client` in the
gateway-client crate: the retry configuration flag and optional api key (the
reqwest connection handle and the two URLs carry no logic we reason about,
the URLs being fixed by `with_base_url`). -/
structure Client where
  retry : Bool
  api_key : Option String
deriving DecidableEq

/-- Method `Client::gateway_request` from the gateway-client crate. -/
def Client.gateway_request (c : Client) : Request :=
  Request.builder .gateway c.api_key

/-- Method `Client::feeder_gateway_request` from the gateway-client crate. -/
def Client.feeder_gateway_request (c : Client) : Request :=
  Request.builder .feeder_gateway c.api_key

/-- Request issued by `Client::pending_block`: one get_state_update request
for the pending block with includeBlock=true, honoring the client retry
flag. -/
def Client.pending_block_request (c : Client) : Request :=
  ((((c.feeder_gateway_request).get_state_update).with_block .Pending).add_param
    "includeBlock" "true").with_retry c.retry

/-- Request issued by `Client::block_header`. -/
def Client.block_header_request (c : Client) (block : BlockId) : Request :=
  ((((c.feeder_gateway_request).get_block).with_block block).add_param
    "headerOnly" "true").with_retry c.retry

/-- Request issued by `Client::pending_class_by_hash`. -/
def Client.pending_class_by_hash_request (c : Client) (class_hash : ClassHash) : Request :=
  ((((c.feeder_gateway_request).get_class_by_hash).with_class_hash class_hash).with_block
    .Pending).with_retry c.retry

/-- Request issued by `Client::pending_casm_by_hash`. -/
def Client.pending_casm_by_hash_request (c : Client) (class_hash : ClassHash) : Request :=
  ((((c.feeder_gateway_request).get_compiled_class_by_class_hash).with_class_hash
    class_hash).with_block .Pending).with_retry c.retry

/-- Request issued by `Client::transaction`. -/
def Client.transaction_request (c : Client) (transaction_hash : Felt) : Request :=
  (((c.feeder_gateway_request).get_transaction).with_transaction_hash
    transaction_hash).with_retry c.retry

/-- Request issued by `Client::state_update_with_block`. -/
def Client.state_update_with_block_request (c : Client) (block : Nat) : Request :=
  ((((c.feeder_gateway_request).get_state_update).with_block (.Number block)).add_param
    "includeBlock" "true").with_retry c.retry

/-- Request issued by `Client::eth_contract_addresses`. -/
def Client.eth_contract_addresses_request (c : Client) : Request :=
  ((c.feeder_gateway_request).get_contract_addresses).with_retry c.retry

/-- Request issued by `Client::block_traces`. -/
def Client.block_traces_request (c : Client) (block : BlockId) : Request :=
  (((c.feeder_gateway_request).get_block_traces).with_block block).with_retry c.retry

/-- Request issued by `Client::transaction_trace`. -/
def Client.transaction_trace_request (c : Client) (transaction : Felt) : Request :=
  (((c.feeder_gateway_request).get_transaction_trace).with_transaction_hash
    transaction).with_retry c.retry

/-- Request issued by `Client::signature`. -/
def Client.signature_request (c : Client) (block : BlockId) : Request :=
  (((c.feeder_gateway_request).get_signature).with_block block).with_retry c.retry

/-- Request issued by `Client::add_invoke_transaction`: retry is hardwired to
false at the call site. -/
def Client.add_invoke_transaction_request (c : Client) : Request :=
  ((c.gateway_request).add_transaction).with_retry false

/-- Request issued by `Client::add_declare_transaction`: optional token, and
retry hardwired to false at the call site. -/
def Client.add_declare_transaction_request (c : Client) (token : Option String) : Request :=
  (((c.gateway_request).add_transaction).with_optional_token token).with_retry false

/-- Request issued by `Client::add_deploy_account`: retry hardwired to false
at the call site. -/
def Client.add_deploy_account_request (c : Client) : Request :=
  ((c.gateway_request).add_transaction).with_retry false

/-- Modelled from the spec: the classified failure taxonomy of the
gateway-types crate (not among the sources).  `StarknetError` is the
authoritative rejection carrying a structured code and message; transport
and decode failures are the transient classes. -/
inductive SequencerError
| StarknetError (code : Nat) (message : String)
| TransportFailure
| DecodeFailure
deriving DecidableEq

/-- Modelled from the spec: the retry predicate documented on `Client` in
lib.rs (retry on all errors except Starknet-specific ones). -/
def should_retry : SequencerError → Bool
| .StarknetError _ _ => false
| .TransportFailure => true
| .DecodeFailure => true

/-- Modelled from the spec: the backoff formula documented on `Client` in
lib.rs, in seconds, for retry iteration N. -/
def backoff_delay (n : Nat) : Nat := min (2 ^ n * 15) 600

/-- Modelled from the spec: the retry loop consumes successive attempt
outcomes, stopping at the first success or non-retryable error and returning
the final outcome together with the number of requests issued; it returns
none when the (infinite) outcome stream is exhausted without a final
answer. -/
def retry_loop {α : Type} : List (Except SequencerError α) →
    Option (Except SequencerError α × Nat)
| [] => none
| .ok v :: _ => some (.ok v, 1)
| .error e :: rest =>
  if should_retry e then
    match retry_loop rest with
    | some (res, n) => some (res, n + 1)
    | none => none
  else some (.error e, 1)

/-- Abstraction of a JSON wire object for the decode dispatch: the set of
field names present, and the numeric value carried by the version field
(meaningful only when the version field is present; value-level parse
failures of other fields are below this model, which captures exactly the
version dispatch and the field-name schema checks of the serde decoders). -/
structure JsonObj where
  fields : List String
  version : Nat
deriving DecidableEq

/-- Decode failure classes of the codec, per the spec taxonomy: a version
outside the dispatch table, or any other schema mismatch. -/
inductive DecodeError
| unsupportedVersion
| malformedPayload
deriving DecidableEq

/-- Field names of `BroadcastedDeclareTransactionV0` (strict schema). -/
def declareV0Fields : List String :=
  ["max_fee", "version", "signature", "contract_class", "sender_address"]

/-- Field names of `BroadcastedDeclareTransactionV1` (strict schema). -/
def declareV1Fields : List String :=
  ["max_fee", "version", "signature", "nonce", "contract_class", "sender_address"]

/-- Field names of `BroadcastedDeclareTransactionV2` (strict schema). -/
def declareV2Fields : List String :=
  ["max_fee", "version", "signature", "nonce", "compiled_class_hash", "contract_class",
   "sender_address"]

/-- Field names of `BroadcastedDeclareTransactionV3` (strict schema). -/
def declareV3Fields : List String :=
  ["version", "signature", "nonce", "resource_bounds", "tip", "paymaster_data",
   "account_deployment_data", "nonce_data_availability_mode", "fee_data_availability_mode",
   "compiled_class_hash", "contract_class", "sender_address"]

/-- Field names of `BroadcastedDeployAccountTransactionV0V1` (strict schema). -/
def deployAccountV0V1Fields : List String :=
  ["version", "max_fee", "signature", "nonce", "contract_address_salt", "constructor_calldata",
   "class_hash"]

/-- Field names of `BroadcastedDeployAccountTransactionV3` (strict schema). -/
def deployAccountV3Fields : List String :=
  ["version", "signature", "nonce", "resource_bounds", "tip", "paymaster_data",
   "nonce_data_availability_mode", "fee_data_availability_mode", "contract_address_salt",
   "constructor_calldata", "class_hash"]

/-- Field names of `BroadcastedInvokeTransactionV0` (strict schema). -/
def invokeV0Fields : List String :=
  ["version", "max_fee", "signature", "contract_address", "entry_point_selector", "calldata"]

/-- Field names of `BroadcastedInvokeTransactionV1` (strict schema). -/
def invokeV1Fields : List String :=
  ["version", "max_fee", "signature", "nonce", "sender_address", "calldata"]

/-- Field names of `BroadcastedInvokeTransactionV3` (strict schema). -/
def invokeV3Fields : List String :=
  ["version", "signature", "nonce", "resource_bounds", "tip", "paymaster_data",
   "account_deployment_data", "nonce_data_availability_mode", "fee_data_availability_mode",
   "sender_address", "calldata"]

/-- A shape decode with `deny_unknown_fields` succeeds exactly when the
object carries no field outside the schema and every (required) schema field
is present. -/
def matchesSchema (schema : List String) (obj : JsonObj) : Prop :=
  (∀ f ∈ obj.fields, f ∈ schema) ∧ ∀ f ∈ schema, f ∈ obj.fields

instance (schema : List String) (obj : JsonObj) : Decidable (matchesSchema schema obj) :=
  inferInstanceAs (Decidable (And _ _))

/-- Shape selected by the Declare version dispatch. -/
inductive DeclareTag
| v0
| v1
| v2
| v3
deriving DecidableEq

/-- Base version that selects each Declare shape. -/
def DeclareTag.selectVersion : DeclareTag → Nat
| .v0 => 0
| .v1 => 1
| .v2 => 2
| .v3 => 3

/-- Strict schema of each Declare shape. -/
def DeclareTag.schema : DeclareTag → List String
| .v0 => declareV0Fields
| .v1 => declareV1Fields
| .v2 => declareV2Fields
| .v3 => declareV3Fields

/-- Custom `Deserialize` for `BroadcastedDeclareTransaction` in types.rs:
extract the version field, strip the query bit, then dispatch to exactly one
shape; an unmatched base version is a hard error. -/
def decodeDeclare (obj : JsonObj) : Except DecodeError DeclareTag :=
  if "version" ∈ obj.fields then
    let v := without_query_version obj.version
    if v = 0 then
      if matchesSchema declareV0Fields obj then .ok .v0 else .error .malformedPayload
    else if v = 1 then
      if matchesSchema declareV1Fields obj then .ok .v1 else .error .malformedPayload
    else if v = 2 then
      if matchesSchema declareV2Fields obj then .ok .v2 else .error .malformedPayload
    else if v = 3 then
      if matchesSchema declareV3Fields obj then .ok .v3 else .error .malformedPayload
    else .error .unsupportedVersion
  else .error .malformedPayload

/-- Shape selected by the Invoke version dispatch. -/
inductive InvokeTag
| v0
| v1
| v3
deriving DecidableEq

/-- Base version that selects each Invoke shape. -/
def InvokeTag.selectVersion : InvokeTag → Nat
| .v0 => 0
| .v1 => 1
| .v3 => 3

/-- Strict schema of each Invoke shape. -/
def InvokeTag.schema : InvokeTag → List String
| .v0 => invokeV0Fields
| .v1 => invokeV1Fields
| .v3 => invokeV3Fields

/-- Custom `Deserialize` for `BroadcastedInvokeTransaction` in types.rs. -/
def decodeInvoke (obj : JsonObj) : Except DecodeError InvokeTag :=
  if "version" ∈ obj.fields then
    let v := without_query_version obj.version
    if v = 0 then
      if matchesSchema invokeV0Fields obj then .ok .v0 else .error .malformedPayload
    else if v = 1 then
      if matchesSchema invokeV1Fields obj then .ok .v1 else .error .malformedPayload
    else if v = 3 then
      if matchesSchema invokeV3Fields obj then .ok .v3 else .error .malformedPayload
    else .error .unsupportedVersion
  else .error .malformedPayload

/-- Shape selected by the DeployAccount version dispatch. -/
inductive DeployAccountTag
| v0v1
| v3
deriving DecidableEq

/-- Base versions that select each DeployAccount shape. -/
def DeployAccountTag.selects : DeployAccountTag → Nat → Prop
| .v0v1 => fun v => v = 0 ∨ v = 1
| .v3 => fun v => v = 3

/-- Strict schema of each DeployAccount shape. -/
def DeployAccountTag.schema : DeployAccountTag → List String
| .v0v1 => deployAccountV0V1Fields
| .v3 => deployAccountV3Fields

/-- Custom `Deserialize` for `BroadcastedDeployAccountTransaction` in
types.rs: versions 0 and 1 share the V0V1 shape, version 3 selects V3. -/
def decodeDeployAccount (obj : JsonObj) : Except DecodeError DeployAccountTag :=
  if "version" ∈ obj.fields then
    let v := without_query_version obj.version
    if v = 0 ∨ v = 1 then
      if matchesSchema deployAccountV0V1Fields obj then .ok .v0v1 else .error .malformedPayload
    else if v = 3 then
      if matchesSchema deployAccountV3Fields obj then .ok .v3 else .error .malformedPayload
    else .error .unsupportedVersion
  else .error .malformedPayload

/-- Decode of the response Dto of `Client::pending_block` and
`Client::state_update_with_block`: a serde struct with the two required
fields block and state_update, so decoding succeeds exactly when both are
present in the response object. -/
def decodeStateUpdateWithBlockDto (respFields : List String) : Except DecodeError Unit :=
  if "block" ∈ respFields ∧ "state_update" ∈ respFields then .ok ()
  else .error .malformedPayload

/-- Gateway-reported status enumeration.  Its constructors are exactly those
enumerated by the exhaustive match in the `From` impl in types.rs. -/
inductive Status
| AcceptedOnL1
| AcceptedOnL2
| NotReceived
| Pending
| Received
| Rejected
| Reverted
| Aborted
deriving DecidableEq

/-- Outward RPC block status, from `BlockStatus` in types.rs. -/
inductive BlockStatus
| Pending
| AcceptedOnL2
| AcceptedOnL1
| Rejected
deriving DecidableEq

/-- Mapping `From<starknet_gateway_types::reply::Status> for BlockStatus`
from types.rs, arm by arm. -/
def BlockStatus.ofStatus : Status → BlockStatus
| .AcceptedOnL1 => .AcceptedOnL1
| .AcceptedOnL2 => .AcceptedOnL2
| .NotReceived => .Rejected
| .Pending => .Pending
| .Received => .Pending
| .Rejected => .Rejected
| .Reverted => .Rejected
| .Aborted => .Rejected

/-- Fetched raw transaction as used by api.rs: the status and optional block
placement matter to the routing logic; the rest of the payload is carried
opaquely. -/
structure RawTransaction where
  status : Status
  block_hash : Option Felt
  transaction_index : Option Nat
  body : Nat
deriving DecidableEq

/-- Raw block as used by `get_transaction_receipt` in api.rs: its status and
its receipts (each carried opaquely). -/
structure RawBlock where
  status : Status
  transaction_receipts : List Nat
deriving DecidableEq

/-- Error codes of the RPC error enumeration used by api.rs. -/
inductive RpcErrorCode
| InvalidTransactionHash
| InvalidBlockHash
deriving DecidableEq

/-- RPC-level error as surfaced by api.rs: a protocol error code or an
invalid-params call error. -/
inductive RpcError
| Code (c : RpcErrorCode)
| InvalidParams (msg : String)
deriving DecidableEq

/-- Helper `transaction_index_not_found` from api.rs. -/
def transaction_index_not_found (index : Nat) : RpcError :=
  .InvalidParams ("transaction index " ++ toString index ++ " not found")

/-- Outward RPC transaction produced by `txn.into()` in api.rs; the
conversion itself is a field-for-field repackaging, carried opaquely. -/
structure RpcTransaction where
  ofRaw : RawTransaction
deriving DecidableEq

/-- Receipt with status, from `TransactionReceipt::with_status` in the rpc
types used by api.rs. -/
structure ReceiptWithStatus where
  receipt : Nat
  status : Status
deriving DecidableEq

/-- Method `RpcApi::get_raw_transaction_by_hash` from api.rs, applied to the
transaction the client fetch returned: a NotReceived status is rejected as
an invalid transaction hash, any other status passes the transaction on. -/
def get_raw_transaction_by_hash (txn : RawTransaction) : Except RpcError RawTransaction :=
  if txn.status = Status.NotReceived then .error (.Code .InvalidTransactionHash)
  else .ok txn

/-- Method `RpcApi::get_transaction_by_hash` from api.rs. -/
def get_transaction_by_hash (txn : RawTransaction) : Except RpcError RpcTransaction :=
  match get_raw_transaction_by_hash txn with
  | .error e => .error e
  | .ok t => .ok { ofRaw := t }

/-- Continuation of `RpcApi::get_transaction_receipt` after the raw
transaction gate, from api.rs; the block fetch is abstracted as a
function of the block hash. -/
def get_transaction_receipt_rest (t : RawTransaction)
    (blockFetch : Felt → Except RpcError RawBlock) : Except RpcError ReceiptWithStatus :=
  match t.block_hash with
  | some block_hash =>
    match t.transaction_index with
    | some index =>
      match blockFetch block_hash with
      | .error e => .error e
      | .ok block =>
        match block.transaction_receipts.get? index with
        | some receipt => .ok { receipt := receipt, status := block.status }
        | none => .error (transaction_index_not_found index)
    | none => .error (.InvalidParams "transaction index not found")
  | none => .error (.Code .InvalidBlockHash)

/-- Method `RpcApi::get_transaction_receipt` from api.rs. -/
def get_transaction_receipt (txn : RawTransaction)
    (blockFetch : Felt → Except RpcError RawBlock) : Except RpcError ReceiptWithStatus :=
  match get_raw_transaction_by_hash txn with
  | .error e => .error e
  | .ok t => get_transaction_receipt_rest t blockFetch

/-- Decidable equality of decode results, so witnesses can be checked by
evaluation. -/
instance {ε α : Type} [DecidableEq ε] [DecidableEq α] : DecidableEq (Except ε α) := by
  intro a b
  cases a <;> cases b
  case error.error e f =>
    exact if h : e = f then isTrue (by rw [h]) else isFalse (by intro hc; injection hc; exact h (by assumption))
  case error.ok e f => exact isFalse (fun hc => Except.noConfusion hc)
  case ok.error e f => exact isFalse (fun hc => Except.noConfusion hc)
  case ok.ok e f =>
    exact if h : e = f then isTrue (by rw [h]) else isFalse (by intro hc; injection hc; exact h (by assumption))

/-- Contract address carried by a canonical variant, for the DeployAccount
variants (the only canonical variants carrying one). -/
def TransactionVariant.contract_address? : TransactionVariant → Option ContractAddress
| .DeployAccountV0V1 t => some t.contract_address
| .DeployAccountV3 t => some t.contract_address
| _ => none

/-! Theorems. -/

/-- C1: `BroadcastedTransaction::into_common` is a total, panic-free mapping:
for every wire transaction shape it returns a canonical transaction whose
variant is exactly the one matching the shape (witnessed by the tag
equality, totality being the totality of the Lean function), and for
Declare V0, which carries no nonce on the wire, the canonical nonce is the
zero value. -/
theorem c1_into_common_total_tag_and_declareV0_nonce :
    (∀ (tx : BroadcastedTransaction) (cid : ChainId),
      (tx.into_common cid).variant.tag = tx.expected_tag)
    ∧ ∀ (d : BroadcastedDeclareTransactionV0) (cid : ChainId),
      ((BroadcastedTransaction.Declare (.V0 d)).into_common cid).variant =
        .DeclareV0 { class_hash := d.contract_class.class_hash, max_fee := d.max_fee,
                     nonce := 0, signature := d.signature,
                     sender_address := d.sender_address } := by
  constructor
  · intro tx cid
    cases tx with
    | Declare t => cases t <;> rfl
    | Invoke t => cases t <;> rfl
    | DeployAccount t => cases t <;> rfl
  · intro d cid
    rfl

/-- C2: every read operation of the client façade carries the client's
configured retry flag on its request, and every submission operation carries
retry disabled, whatever the configured flag. -/
theorem c2_read_ops_honor_retry_submissions_never :
    (∀ c : Client, c.pending_block_request.retry = c.retry)
    ∧ (∀ (c : Client) (b : BlockId), (c.block_header_request b).retry = c.retry)
    ∧ (∀ (c : Client) (h : ClassHash), (c.pending_class_by_hash_request h).retry = c.retry)
    ∧ (∀ (c : Client) (h : ClassHash), (c.pending_casm_by_hash_request h).retry = c.retry)
    ∧ (∀ (c : Client) (h : Felt), (c.transaction_request h).retry = c.retry)
    ∧ (∀ (c : Client) (n : Nat), (c.state_update_with_block_request n).retry = c.retry)
    ∧ (∀ c : Client, c.eth_contract_addresses_request.retry = c.retry)
    ∧ (∀ (c : Client) (b : BlockId), (c.block_traces_request b).retry = c.retry)
    ∧ (∀ (c : Client) (h : Felt), (c.transaction_trace_request h).retry = c.retry)
    ∧ (∀ (c : Client) (b : BlockId), (c.signature_request b).retry = c.retry)
    ∧ (∀ c : Client, c.add_invoke_transaction_request.retry = false)
    ∧ (∀ (c : Client) (tok : Option String), (c.add_declare_transaction_request tok).retry = false)
    ∧ (∀ c : Client, c.add_deploy_account_request.retry = false) :=
  ⟨fun _ => rfl, fun _ _ => rfl, fun _ _ => rfl, fun _ _ => rfl, fun _ _ => rfl,
   fun _ _ => rfl, fun _ => rfl, fun _ _ => rfl, fun _ _ => rfl, fun _ _ => rfl,
   fun _ => rfl, fun _ _ => rfl, fun _ => rfl⟩

/-- C3: `should_retry` is true exactly for transport and decode failures and
false for authoritative rejections, and the retry loop answers after exactly
one request when the first outcome is an authoritative rejection, never
re-issuing the request. -/
theorem c3_should_retry_classification :
    (∀ (code : Nat) (msg : String), should_retry (.StarknetError code msg) = false)
    ∧ should_retry .TransportFailure = true
    ∧ should_retry .DecodeFailure = true
    ∧ ∀ (α : Type) (code : Nat) (msg : String) (rest : List (Except SequencerError α)),
      retry_loop (.error (.StarknetError code msg) :: rest) =
        some (.error (.StarknetError code msg), 1) :=
  ⟨fun _ _ => rfl, rfl, rfl, fun _ _ _ _ => rfl⟩

/-- C4: the backoff delay is min(2^N * 15, 600) seconds for every retry
iteration N at least 1, which yields 30, 60, 120, 240, 480 and 600 seconds
for N = 1..6, and the delay never exceeds 600 seconds. -/
theorem c4_backoff_delay_values_and_cap :
    backoff_delay 1 = 30 ∧ backoff_delay 2 = 60 ∧ backoff_delay 3 = 120 ∧
    backoff_delay 4 = 240 ∧ backoff_delay 5 = 480 ∧ backoff_delay 6 = 600 ∧
    (∀ n, 1 ≤ n → backoff_delay n = min (2 ^ n * 15) 600) ∧
    ∀ n, backoff_delay n ≤ 600 := by
  refine ⟨by decide, by decide, by decide, by decide, by decide, by decide,
    fun n _ => rfl, fun n => ?_⟩
  exact Nat.min_le_right _ _

/-- Witness for C4 at the concrete iteration N = 6. -/
theorem c4_backoff_delay_values_and_cap_witness :
    1 ≤ 6 ∧ backoff_delay 6 = min (2 ^ 6 * 15) 600 :=
  ⟨by decide, c4_backoff_delay_values_and_cap.2.2.2.2.2.2.1 6 (by decide)⟩

/-- C9: the gateway-status-to-RPC-block-status mapping sends NotReceived,
Rejected, Reverted and Aborted to Rejected, AcceptedOnL1 to AcceptedOnL1,
AcceptedOnL2 to AcceptedOnL2, and both Pending and Received to Pending; the
eight equations cover the whole gateway status enumeration, so the mapping
is total over it. -/
theorem c9_block_status_mapping :
    BlockStatus.ofStatus .NotReceived = .Rejected
    ∧ BlockStatus.ofStatus .Rejected = .Rejected
    ∧ BlockStatus.ofStatus .Reverted = .Rejected
    ∧ BlockStatus.ofStatus .Aborted = .Rejected
    ∧ BlockStatus.ofStatus .AcceptedOnL1 = .AcceptedOnL1
    ∧ BlockStatus.ofStatus .AcceptedOnL2 = .AcceptedOnL2
    ∧ BlockStatus.ofStatus .Pending = .Pending
    ∧ BlockStatus.ofStatus .Received = .Pending :=
  ⟨rfl, rfl, rfl, rfl, rfl, rfl, rfl, rfl⟩

/-- C5: decoding a broadcasted transaction dispatches on the base version
obtained by stripping the query-marker bit: a successful decode always
selects exactly the shape of its base version (Declare 0..3, Invoke 0/1/3,
DeployAccount 0 or 1 to V0V1 and 3 to V3), a base version outside the set
for the kind is a hard decode error, and adding the query bit never changes
the base version. -/
theorem c5_version_dispatch :
    (∀ obj : JsonObj, "version" ∈ obj.fields → 4 ≤ without_query_version obj.version →
      decodeDeclare obj = .error .unsupportedVersion)
    ∧ (∀ (obj : JsonObj) (t : DeclareTag), decodeDeclare obj = .ok t →
      without_query_version obj.version = t.selectVersion)
    ∧ (∀ obj : JsonObj, "version" ∈ obj.fields →
      (without_query_version obj.version = 2 ∨ 4 ≤ without_query_version obj.version) →
      decodeInvoke obj = .error .unsupportedVersion)
    ∧ (∀ (obj : JsonObj) (t : InvokeTag), decodeInvoke obj = .ok t →
      without_query_version obj.version = t.selectVersion)
    ∧ (∀ obj : JsonObj, "version" ∈ obj.fields →
      (without_query_version obj.version = 2 ∨ 4 ≤ without_query_version obj.version) →
      decodeDeployAccount obj = .error .unsupportedVersion)
    ∧ (∀ (obj : JsonObj) (t : DeployAccountTag), decodeDeployAccount obj = .ok t →
      t.selects (without_query_version obj.version))
    ∧ ∀ v : Nat, without_query_version (QUERY_VERSION_BASE + v) = without_query_version v := by
  refine ⟨?_, ?_, ?_, ?_, ?_, ?_, ?_⟩
  · intro obj hver hv
    have h0 : without_query_version obj.version ≠ 0 := by omega
    have h1 : without_query_version obj.version ≠ 1 := by omega
    have h2 : without_query_version obj.version ≠ 2 := by omega
    have h3 : without_query_version obj.version ≠ 3 := by omega
    simp [decodeDeclare, hver, h0, h1, h2, h3]
  · intro obj t h
    simp only [decodeDeclare] at h
    split_ifs at h with hver h0 hm0 h1 hm1 h2 hm2 h3 hm3
    · injection h with heq; subst heq; exact h0
    · injection h with heq; subst heq; exact h1
    · injection h with heq; subst heq; exact h2
    · injection h with heq; subst heq; exact h3
  · intro obj hver hv
    have h0 : without_query_version obj.version ≠ 0 := by rcases hv with h | h <;> omega
    have h1 : without_query_version obj.version ≠ 1 := by rcases hv with h | h <;> omega
    have h3 : without_query_version obj.version ≠ 3 := by rcases hv with h | h <;> omega
    simp [decodeInvoke, hver, h0, h1, h3]
  · intro obj t h
    simp only [decodeInvoke] at h
    split_ifs at h with hver h0 hm0 h1 hm1 h3 hm3
    · injection h with heq; subst heq; exact h0
    · injection h with heq; subst heq; exact h1
    · injection h with heq; subst heq; exact h3
  · intro obj hver hv
    have h01 : ¬(without_query_version obj.version = 0 ∨ without_query_version obj.version = 1) := by
      rcases hv with h | h <;> omega
    have h3 : without_query_version obj.version ≠ 3 := by rcases hv with h | h <;> omega
    simp [decodeDeployAccount, hver, h01, h3]
  · intro obj t h
    simp only [decodeDeployAccount] at h
    split_ifs at h with hver h01 hm01 h3 hm3
    · injection h with heq; subst heq; exact h01
    · injection h with heq; subst heq; exact h3
  · intro v
    show (QUERY_VERSION_BASE + v) % QUERY_VERSION_BASE = v % QUERY_VERSION_BASE
    exact Nat.add_mod_left _ _

/-- Witness for C5 at concrete payloads: a Declare payload with base version
5 and Invoke/DeployAccount payloads with base version 2 are rejected. -/
theorem c5_version_dispatch_witness :
    decodeDeclare { fields := ["version"], version := 5 } = .error .unsupportedVersion
    ∧ decodeInvoke { fields := ["version"], version := 2 } = .error .unsupportedVersion
    ∧ decodeDeployAccount { fields := ["version"], version := 2 } = .error .unsupportedVersion :=
  ⟨c5_version_dispatch.1 _ (by decide) (by decide),
   c5_version_dispatch.2.2.1 _ (by decide) (Or.inl (by decide)),
   c5_version_dispatch.2.2.2.2.1 _ (by decide) (Or.inl (by decide))⟩

/-- C6: for every kind, a successful decode implies every field of the
payload belongs to the strict schema of the selected shape; equivalently a
payload carrying any field unknown to the selected shape never decodes
successfully. -/
theorem c6_unknown_fields_rejected :
    (∀ (obj : JsonObj) (t : DeclareTag), decodeDeclare obj = .ok t →
      ∀ f ∈ obj.fields, f ∈ t.schema)
    ∧ (∀ (obj : JsonObj) (t : InvokeTag), decodeInvoke obj = .ok t →
      ∀ f ∈ obj.fields, f ∈ t.schema)
    ∧ ∀ (obj : JsonObj) (t : DeployAccountTag), decodeDeployAccount obj = .ok t →
      ∀ f ∈ obj.fields, f ∈ t.schema := by
  refine ⟨?_, ?_, ?_⟩
  · intro obj t h f hf
    simp only [decodeDeclare] at h
    split_ifs at h with hver h0 hm0 h1 hm1 h2 hm2 h3 hm3
    · injection h with heq; subst heq; exact hm0.1 f hf
    · injection h with heq; subst heq; exact hm1.1 f hf
    · injection h with heq; subst heq; exact hm2.1 f hf
    · injection h with heq; subst heq; exact hm3.1 f hf
  · intro obj t h f hf
    simp only [decodeInvoke] at h
    split_ifs at h with hver h0 hm0 h1 hm1 h3 hm3
    · injection h with heq; subst heq; exact hm0.1 f hf
    · injection h with heq; subst heq; exact hm1.1 f hf
    · injection h with heq; subst heq; exact hm3.1 f hf
  · intro obj t h f hf
    simp only [decodeDeployAccount] at h
    split_ifs at h with hver h01 hm01 h3 hm3
    · injection h with heq; subst heq; exact hm01.1 f hf
    · injection h with heq; subst heq; exact hm3.1 f hf

/-- Witness for C6: the full Declare V0 schema decodes, and the same payload
with one extra unknown field implies membership of that field in the schema,
which is refuted concretely, so that payload cannot decode. -/
theorem c6_unknown_fields_rejected_witness :
    decodeDeclare { fields := "extra_field" :: declareV0Fields, version := 0 } =
      .error .malformedPayload
    ∧ ∀ t : DeclareTag,
      decodeDeclare { fields := "extra_field" :: declareV0Fields, version := 0 } ≠ .ok t :=
  ⟨by decide, fun t h => by
    have hmem := c6_unknown_fields_rejected.1 _ t h "extra_field" (by decide)
    cases t <;> exact absurd hmem (by decide)⟩

/-- C7: pending_block and state_update_with_block issue their one request
against the get_state_update endpoint with includeBlock=true, and the paired
response decode fails when either the block or the state_update field is
absent, succeeding only when both are present. -/
theorem c7_paired_block_state_update :
    (∀ c : Client, ("includeBlock", "true") ∈ c.pending_block_request.params
      ∧ c.pending_block_request.pathSegments = ["get_state_update"])
    ∧ (∀ (c : Client) (n : Nat),
      ("includeBlock", "true") ∈ (c.state_update_with_block_request n).params
      ∧ (c.state_update_with_block_request n).pathSegments = ["get_state_update"])
    ∧ (∀ respFields : List String, "state_update" ∉ respFields →
      decodeStateUpdateWithBlockDto respFields = .error .malformedPayload)
    ∧ (∀ respFields : List String, "block" ∉ respFields →
      decodeStateUpdateWithBlockDto respFields = .error .malformedPayload)
    ∧ ∀ respFields : List String, decodeStateUpdateWithBlockDto respFields = .ok () →
      "block" ∈ respFields ∧ "state_update" ∈ respFields := by
  refine ⟨?_, ?_, ?_, ?_, ?_⟩
  · intro c
    exact ⟨List.Mem.tail _ (List.Mem.head _), rfl⟩
  · intro c n
    exact ⟨List.Mem.tail _ (List.Mem.head _), rfl⟩
  · intro respFields h
    simp [decodeStateUpdateWithBlockDto, h]
  · intro respFields h
    simp [decodeStateUpdateWithBlockDto, h]
  · intro respFields h
    simp only [decodeStateUpdateWithBlockDto] at h
    split_ifs at h with hc
    exact hc

/-- Witness for C7: a response carrying only the block field fails to
decode, and the full response decodes. -/
theorem c7_paired_block_state_update_witness :
    ("state_update" ∉ ["block"])
    ∧ decodeStateUpdateWithBlockDto ["block"] = .error .malformedPayload
    ∧ ("block" ∈ ["block", "state_update"] ∧ "state_update" ∈ ["block", "state_update"]) :=
  ⟨by decide, c7_paired_block_state_update.2.2.1 ["block"] (by decide),
   c7_paired_block_state_update.2.2.2.2 ["block", "state_update"] (by decide)⟩

/-- C8: for both DeployAccount wire shapes, the canonical contract address
is the deployed-address derivation applied to the constructor calldata, the
salt and the class hash, and it depends on nothing else in the wire payload:
two payloads agreeing on that triple receive the same address. -/
theorem c8_deploy_account_address_derived :
    (∀ (d : BroadcastedDeployAccountTransactionV0V1) (cid : ChainId),
      ((BroadcastedTransaction.DeployAccount (.V0V1 d)).into_common cid).variant.contract_address?
        = some (deployed_contract_address_fn d.constructor_calldata d.contract_address_salt
            d.class_hash))
    ∧ (∀ (d : BroadcastedDeployAccountTransactionV3) (cid : ChainId),
      ((BroadcastedTransaction.DeployAccount (.V3 d)).into_common cid).variant.contract_address?
        = some (deployed_contract_address_fn d.constructor_calldata d.contract_address_salt
            d.class_hash))
    ∧ (∀ (d1 d2 : BroadcastedDeployAccountTransactionV0V1) (cid1 cid2 : ChainId),
      d1.constructor_calldata = d2.constructor_calldata →
      d1.contract_address_salt = d2.contract_address_salt →
      d1.class_hash = d2.class_hash →
      ((BroadcastedTransaction.DeployAccount (.V0V1 d1)).into_common cid1).variant.contract_address?
        = ((BroadcastedTransaction.DeployAccount
            (.V0V1 d2)).into_common cid2).variant.contract_address?)
    ∧ ∀ (d1 d2 : BroadcastedDeployAccountTransactionV3) (cid1 cid2 : ChainId),
      d1.constructor_calldata = d2.constructor_calldata →
      d1.contract_address_salt = d2.contract_address_salt →
      d1.class_hash = d2.class_hash →
      ((BroadcastedTransaction.DeployAccount (.V3 d1)).into_common cid1).variant.contract_address?
        = ((BroadcastedTransaction.DeployAccount
            (.V3 d2)).into_common cid2).variant.contract_address? := by
  refine ⟨fun d cid => rfl, fun d cid => rfl, ?_, ?_⟩
  · intro d1 d2 cid1 cid2 h1 h2 h3
    show some (deployed_contract_address_fn d1.constructor_calldata d1.contract_address_salt
        d1.class_hash)
      = some (deployed_contract_address_fn d2.constructor_calldata d2.contract_address_salt
        d2.class_hash)
    rw [h1, h2, h3]
  · intro d1 d2 cid1 cid2 h1 h2 h3
    show some (deployed_contract_address_fn d1.constructor_calldata d1.contract_address_salt
        d1.class_hash)
      = some (deployed_contract_address_fn d2.constructor_calldata d2.contract_address_salt
        d2.class_hash)
    rw [h1, h2, h3]

/-- Witness for C8: two concrete V0V1 payloads differing in fee, nonce,
version and signature but agreeing on the derivation inputs receive the
same canonical contract address. -/
theorem c8_deploy_account_address_derived_witness :
    ((BroadcastedTransaction.DeployAccount (.V0V1
        { version := 1, max_fee := 10, signature := [1, 2], nonce := 5,
          contract_address_salt := 3, constructor_calldata := [2, 4],
          class_hash := 9 })).into_common 1).variant.contract_address?
      = ((BroadcastedTransaction.DeployAccount (.V0V1
        { version := 0, max_fee := 99, signature := [], nonce := 0,
          contract_address_salt := 3, constructor_calldata := [2, 4],
          class_hash := 9 })).into_common 2).variant.contract_address? :=
  c8_deploy_account_address_derived.2.2.1
    { version := 1, max_fee := 10, signature := [1, 2], nonce := 5,
      contract_address_salt := 3, constructor_calldata := [2, 4], class_hash := 9 }
    { version := 0, max_fee := 99, signature := [], nonce := 0,
      contract_address_salt := 3, constructor_calldata := [2, 4], class_hash := 9 }
    1 2 rfl rfl rfl

/-- C10: at the RPC surface, a fetched transaction whose gateway status is
NotReceived makes get_transaction_by_hash and get_transaction_receipt return
the InvalidTransactionHash error, and any other status passes the fetched
transaction through (by-hash returns its conversion, the receipt path
continues with the transaction itself). -/
theorem c10_not_received_is_invalid_hash :
    (∀ (txn : RawTransaction) (bf : Felt → Except RpcError RawBlock),
      txn.status = .NotReceived →
        get_raw_transaction_by_hash txn = .error (.Code .InvalidTransactionHash)
        ∧ get_transaction_by_hash txn = .error (.Code .InvalidTransactionHash)
        ∧ get_transaction_receipt txn bf = .error (.Code .InvalidTransactionHash))
    ∧ ∀ (txn : RawTransaction) (bf : Felt → Except RpcError RawBlock),
      txn.status ≠ .NotReceived →
        get_raw_transaction_by_hash txn = .ok txn
        ∧ get_transaction_by_hash txn = .ok { ofRaw := txn }
        ∧ get_transaction_receipt txn bf = get_transaction_receipt_rest txn bf := by
  constructor
  · intro txn bf h
    have hraw : get_raw_transaction_by_hash txn = .error (.Code .InvalidTransactionHash) := by
      simp [get_raw_transaction_by_hash, h]
    exact ⟨hraw, by simp [get_transaction_by_hash, hraw],
      by simp [get_transaction_receipt, hraw]⟩
  · intro txn bf h
    have hraw : get_raw_transaction_by_hash txn = .ok txn := by
      simp [get_raw_transaction_by_hash, h]
    exact ⟨hraw, by simp [get_transaction_by_hash, hraw],
      by simp [get_transaction_receipt, hraw]⟩

/-- Witness for C10 at a concrete NotReceived transaction and a concrete
other-status transaction. -/
theorem c10_not_received_is_invalid_hash_witness :
    get_transaction_by_hash ⟨.NotReceived, none, none, 0⟩
      = .error (.Code .InvalidTransactionHash)
    ∧ get_transaction_by_hash ⟨.AcceptedOnL2, some 7, some 0, 1⟩
      = .ok ⟨⟨.AcceptedOnL2, some 7, some 0, 1⟩⟩ :=
  ⟨(c10_not_received_is_invalid_hash.1 ⟨.NotReceived, none, none, 0⟩
      (fun _ => .error (.Code .InvalidBlockHash)) rfl).2.1,
   (c10_not_received_is_invalid_hash.2 ⟨.AcceptedOnL2, some 7, some 0, 1⟩
      (fun _ => .error (.Code .InvalidBlockHash)) (by decide)).2.1⟩

end Pathfinder
